import Mathlib

/-!
Verification of the inference-gateway pipeline in
src/api_orchestrator/main.py: request validation, model selection, cache
fingerprinting, backend dispatch with retry, and the orchestrator that
composes them. Python dict/JSON values are shallowly embedded as the
inductive type Json; Python dicts from a parsed request body are
association lists with first-match lookup; machine floats are modelled as
exact rationals (the requests the claims quantify over use only small
decimal values, on which Python float arithmetic is exact for the
comparisons performed); the SHA-256 digest of the fingerprint engine is
implemented in full.
-/

set_option maxRecDepth 100000

namespace Gateway

/-- A Python/JSON value as produced by req.get_json. Python bools and ints
are distinguished from floats, as json.dumps serializes them differently. -/
inductive Json where
  | null : Json
  | bool (b : Bool) : Json
  | int (n : Int) : Json
  | float (q : Rat) : Json
  | str (s : String) : Json
  | arr (xs : List Json) : Json
  | obj (fields : List (String × Json)) : Json
  deriving Inhabited

mutual

/-- Structural equality of Json values (Python ==, restricted to
structurally equal values; the numeric cross-type equalities of Python
never arise at the comparison sites below, which compare ids and keys). -/
def Json.beq : Json → Json → Bool
  | .null, .null => true
  | .bool a, .bool b => a == b
  | .int a, .int b => a == b
  | .float a, .float b => a == b
  | .str a, .str b => a == b
  | .arr xs, .arr ys => Json.beqList xs ys
  | .obj xs, .obj ys => Json.beqFields xs ys
  | _, _ => false

def Json.beqList : List Json → List Json → Bool
  | [], [] => true
  | x :: xs, y :: ys => Json.beq x y && Json.beqList xs ys
  | _, _ => false

def Json.beqFields : List (String × Json) → List (String × Json) → Bool
  | [], [] => true
  | (k1, v1) :: xs, (k2, v2) :: ys =>
    k1 == k2 && Json.beq v1 v2 && Json.beqFields xs ys
  | _, _ => false

end

/-- Python truthiness of a value (used by the source in if-tests such as
if model, if cached, if not body.get("stream", False)). -/
def Json.truthy : Json → Bool
  | .null => false
  | .bool b => b
  | .int n => n != 0
  | .float q => q != 0
  | .str s => !s.isEmpty
  | .arr xs => !xs.isEmpty
  | .obj fs => !fs.isEmpty

/-- A parsed JSON request body: a Python dict as an association list in
insertion order. Parsed dicts have pairwise distinct keys; lookup takes
the first match, which is total even on lists with duplicates. -/
abbrev RawReq := List (String × Json)

/-- dict lookup without default: d.get(k), None when absent. -/
def jsonGet (fields : List (String × Json)) (k : String) : Option Json :=
  (fields.find? (fun p => p.1 == k)).map (fun p => p.2)

/-- dict lookup with default: d.get(k, default). -/
def getD (r : RawReq) (k : String) (d : Json) : Json :=
  (jsonGet r k).getD d

/-- dict lookup on a Json value that may not be a dict. -/
def Json.get : Json → String → Option Json
  | .obj fs, k => jsonGet fs k
  | _, _ => none

/-- dict assignment d[k] = v: replaces in place when the key exists,
appends at the end otherwise (Python dict insertion-order semantics). -/
def setKey : RawReq → String → Json → RawReq
  | [], k, v => [(k, v)]
  | (k0, v0) :: rest, k, v =>
    if k0 == k then (k, v) :: rest else (k0, v0) :: setKey rest k v

/-- Static model-catalog entry (the MODELS table at the top of main.py). -/
structure ModelSpec where
  context_length : Nat
  price_per_1k_tokens : Rat
  priority : Nat
  deriving DecidableEq

/-- The MODELS catalog, loaded once and immutable. -/
def MODELS : List (String × ModelSpec) :=
  [("mixtral-8x7b", ⟨32768, 2 / 1000, 1⟩),
   ("llama-3-70b", ⟨8192, 3 / 1000, 2⟩),
   ("phi-3-mini", ⟨4096, 5 / 10000, 0⟩)]

/-- MODELS dict lookup by id. -/
def modelsLookup (id : String) : Option ModelSpec :=
  ((MODELS).find? (fun p => p.1 == id)).map (fun p => p.2)

/-- Deterministic rendering of the exact rational value of a float.
Python repr of a float (shortest round-tripping decimal) is an injective
function of the float value, as is this rendering of the reduced
fraction; no claim depends on the precise digits. -/
def floatRepr (q : Rat) : String :=
  toString q.num ++ "/" ++ toString q.den

/-- Python str() of a value, as interpolated into error messages. The
arms the claims exercise are strings and numbers; container values get a
fixed deterministic placeholder (their exact str() form feeds only the
free text of error messages no claim inspects). -/
def pyStr : Json → String
  | .null => "None"
  | .bool true => "True"
  | .bool false => "False"
  | .int n => toString n
  | .float q => floatRepr q
  | .str s => s
  | .arr _ => "[...]"
  | .obj _ => "\x7b...\x7d"

/-- isinstance(x, (int, float)): Python bool is a subclass of int. -/
def pyIsNum : Json → Bool
  | .int _ => true
  | .float _ => true
  | .bool _ => true
  | _ => false

/-- isinstance(x, int): includes bool (a subclass of int). -/
def pyIsInt : Json → Bool
  | .int _ => true
  | .bool _ => true
  | _ => false

/-- Numeric value of an int/float/bool for range comparisons. -/
def pyNumVal : Json → Rat
  | .int n => n
  | .float q => q
  | .bool b => if b then 1 else 0
  | _ => 0

/-- msg.get("content", "") on a message dict. -/
def msgContent (m : Json) : Json :=
  match m.get "content" with
  | some v => v
  | none => .str ""

/-- The list under a Json array, empty for non-arrays (the callers below
only reach this after the validator has established an array). -/
def asArr : Json → List Json
  | .arr xs => xs
  | _ => []

/-- Per-message structural checks of validate_chat_request, from index i:
each message must be a dict with role and content, an enumerated role,
and string content; the first offending index is reported. -/
def messagesCheckFrom (i : Nat) : List Json → Except String Unit
  | [] => .ok ()
  | m :: rest =>
    match m with
    | .obj fs =>
      if (jsonGet fs "role").isNone || (jsonGet fs "content").isNone then
        .error ("message " ++ toString i ++
          " must have \x27role\x27 and \x27content\x27 fields")
      else
        let role := (jsonGet fs "role").getD .null
        let roleIsValid :=
          match role with
          | .str s => s ∈ ["system", "user", "assistant", "function"]
          | _ => false
        if !roleIsValid then
          .error ("message " ++ toString i ++ " has invalid role: " ++
            pyStr role)
        else
          match (jsonGet fs "content").getD .null with
          | .str _ => messagesCheckFrom (i + 1) rest
          | _ => .error ("message " ++ toString i ++
              " content must be a string")
    | _ => .error ("message " ++ toString i ++ " must be a dictionary")

/-- The messages block of validate_chat_request: messages must be a
non-empty list and every element must pass the per-message checks. -/
def messagesCheck (messagesVal : Json) : Except String Unit :=
  match messagesVal with
  | .arr msgs =>
    if msgs.isEmpty then .error "messages must be a non-empty list"
    else messagesCheckFrom 0 msgs
  | _ => .error "messages must be a non-empty list"

/-- model compared to the string "auto" (Python ==, false off strings). -/
def isAutoVal : Json → Bool
  | .str s => s == "auto"
  | _ => false

/-- model in MODELS: dict keys are strings, so only strings can match. -/
def inCatalog : Json → Bool
  | .str s => (modelsLookup s).isSome
  | _ => false

/-- The model block of validate_chat_request: if model and model not in
MODELS and model != "auto" — note the Python truthiness test, under
which a falsy model value (absent, empty string, 0, ...) skips the
check entirely. -/
def modelCheck (r : RawReq) : Except String Unit :=
  let model := (jsonGet r "model").getD .null
  if model.truthy && !(inCatalog model) && !(isAutoVal model) then
    .error ("model \x27" ++ pyStr model ++ "\x27 is not supported")
  else .ok ()

/-- The numeric-range block of validate_chat_request. -/
def numericChecks (r : RawReq) : Except String Unit :=
  let temp := getD r "temperature" (.float 1)
  if !(pyIsNum temp) || pyNumVal temp < 0 || 2 < pyNumVal temp then
    .error "temperature must be between 0.0 and 2.0"
  else
    let max_tokens := getD r "max_tokens" (.int 256)
    if !(pyIsInt max_tokens) || pyNumVal max_tokens < 1 ||
        4096 < pyNumVal max_tokens then
      .error "max_tokens must be between 1 and 4096"
    else
      let top_p := getD r "top_p" (.float 1)
      if !(pyIsNum top_p) || pyNumVal top_p < 0 || 1 < pyNumVal top_p then
        .error "top_p must be between 0.0 and 1.0"
      else .ok ()

/-- The structural part of validate_chat_request, in source order:
messages checks, then the model check, then the numeric checks. -/
def structuralChecks (r : RawReq) : Except String Unit := do
  messagesCheck (getD r "messages" (.arr []))
  modelCheck r
  numericChecks r

/-- total_chars of the validator: sum over messages of
len(str(m.get("content", ""))). -/
def totalCharsStr (msgs : List Json) : Nat :=
  (msgs.map (fun m => (pyStr (msgContent m)).length)).sum

/-- max_context of the validator: the context length of the requested
model if it is a catalog id, with mixtral-8x7b (32768) as the fallback
of MODELS.get both for the sentinel auto and for any id or non-string
not in the catalog. -/
def maxContextOf (r : RawReq) : Nat :=
  let model := (jsonGet r "model").getD .null
  let selected := if !(isAutoVal model) then model else .str "mixtral-8x7b"
  match selected with
  | .str s =>
    match modelsLookup s with
    | some spec => spec.context_length
    | none => 32768
  | _ => 32768

/-- The token-budget block of validate_chat_request: estimate tokens as
total_chars // 4 and reject when the estimate exceeds max_context. -/
def tokenBudgetCheck (r : RawReq) : Except String Unit :=
  let msgs := asArr (getD r "messages" (.arr []))
  let estimated_tokens := totalCharsStr msgs / 4
  let max_context := maxContextOf r
  if estimated_tokens > max_context then
    .error ("estimated tokens (" ++ toString estimated_tokens ++
      ") exceed model context length (" ++ toString max_context ++ ")")
  else .ok ()

/-- validate_chat_request of main.py: the structural checks followed by
the token-budget check, stopping at the first failure. -/
def validate_chat_request (r : RawReq) : Except String Unit := do
  structuralChecks r
  tokenBudgetCheck r

/-- A needle is a leading segment of a haystack (character lists). -/
def charsBeginWith : List Char → List Char → Bool
  | [], _ => true
  | _ :: _, [] => false
  | a :: as, b :: bs => a == b && charsBeginWith as bs

/-- A needle occurs contiguously somewhere in a haystack. -/
def charsContain (needle : List Char) : List Char → Bool
  | [] => charsBeginWith needle []
  | c :: rest => charsBeginWith needle (c :: rest) || charsContain needle rest

/-- The Python substring test, needle in haystack. -/
def pyIn (needle haystack : String) : Bool :=
  charsContain needle.data haystack.data

/-- str.lower, modelled per character (the keywords the selector matches
are ASCII, where Char.toLower agrees with Python lowercasing). -/
def lowerStr (s : String) : String :=
  String.mk (s.data.map Char.toLower)

/-- The technical-keyword list of ModelRouter.select_model. -/
def technical_terms : List String :=
  ["function", "class", "import", "def", "api", "database", "algorithm"]

/-- m.get("content", "") as the string it holds, for messages whose
content is textual (which the validator guarantees before the router or
the orchestrator reads it). -/
def contentOf (m : Json) : String :=
  match msgContent m with
  | .str s => s
  | _ => ""

/-- ModelRouter.select_model: a concrete requested model is returned
unchanged; for the sentinel auto, route on the heuristic token estimate
and the keyword count over the space-joined lower-cased contents. -/
def select_model (requested_model : Json) (messages : List Json) : Json :=
  if !(Json.beq requested_model (.str "auto")) then requested_model
  else
    let total_chars := (messages.map (fun m => (contentOf m).length)).sum
    let estimated_tokens := total_chars / 4
    let content_lower :=
      String.intercalate " " (messages.map (fun m => lowerStr (contentOf m)))
    let complexity_score := technical_terms.foldl
      (fun acc term => if pyIn term content_lower then acc + 1 else acc) 0
    if estimated_tokens > 4000 || complexity_score > 2 then .str "mixtral-8x7b"
    else if estimated_tokens > 2000 || complexity_score > 0 then
      .str "llama-3-70b"
    else .str "phi-3-mini"

/-- A hex digit character, lowercase as hexdigest emits them. -/
def hexDigitChar (n : Nat) : Char :=
  "0123456789abcdef".data.getD n '0'

/-- Four hex digits of a code point, for the JSON \u escape. -/
def hex4 (n : Nat) : String :=
  String.mk ((List.range 4).map (fun i => hexDigitChar ((n >>> (4 * (3 - i))) % 16)))

/-- json.dumps escaping of one character with ensure_ascii: the JSON
shorthand escapes, then \u escapes for other control or non-ASCII
characters (astral code points are rendered as one \u of the code point
rather than a surrogate pair; deterministic either way, and no claim
inspects the digits). -/
def escChar (c : Char) : String :=
  if c == '"' then "\\\""
  else if c == '\\' then "\\\\"
  else if c == '\n' then "\\n"
  else if c == '\t' then "\\t"
  else if c == '\r' then "\\r"
  else if c.toNat == 8 then "\\b"
  else if c.toNat == 12 then "\\f"
  else if c.toNat < 32 || c.toNat > 126 then "\\u" ++ hex4 c.toNat
  else String.mk [c]

/-- A JSON string literal as json.dumps renders it. -/
def strLit (s : String) : String :=
  "\"" ++ String.join (s.data.map escChar) ++ "\""

/-- Lexicographic comparison of character lists by code point, the
ordering Python uses to compare strings. -/
def charListLt : List Char → List Char → Bool
  | [], [] => false
  | [], _ :: _ => true
  | _ :: _, [] => false
  | a :: as, b :: bs =>
    if a.toNat < b.toNat then true
    else if b.toNat < a.toNat then false
    else charListLt as bs

/-- String comparison by code point (Python string less-than). -/
def strLt (a b : String) : Bool := charListLt a.data b.data

/-- Stable insertion of a key/rendered-value pair by key order. -/
def insertRendered (p : String × String) :
    List (String × String) → List (String × String)
  | [] => [p]
  | q :: qs => if strLt p.1 q.1 then p :: q :: qs else q :: insertRendered p qs

/-- Stable sort by key, the sort_keys=True ordering (lexicographic by
code point, as Python compares strings). -/
def sortRendered : List (String × String) → List (String × String)
  | [] => []
  | p :: ps => insertRendered p (sortRendered ps)

/-- Comma-space join of rendered items, the default json.dumps item
separator. -/
def joinEntries : List String → String
  | [] => ""
  | [x] => x
  | x :: xs => x ++ ", " ++ joinEntries xs

mutual

/-- json.dumps with sort_keys=True and default separators. Keys of every
object are emitted in sorted order; values are rendered first and the
key/rendered pairs then sorted, which yields the same string as sorting
before rendering since a value serializes independently of its
position. -/
def dumps : Json → String
  | .null => "null"
  | .bool true => "true"
  | .bool false => "false"
  | .int n => toString n
  | .float q => floatRepr q
  | .str s => strLit s
  | .arr xs => "[" ++ joinEntries (dumpsList xs) ++ "]"
  | .obj fs =>
    "\x7b" ++ joinEntries ((sortRendered (dumpsFields fs)).map
      (fun p => strLit p.1 ++ ": " ++ p.2)) ++ "\x7d"

def dumpsList : List Json → List String
  | [] => []
  | x :: xs => dumps x :: dumpsList xs

def dumpsFields : List (String × Json) → List (String × String)
  | [] => []
  | (k, v) :: fs => (k, dumps v) :: dumpsFields fs

end

/-- UTF-8 bytes of one character (str.encode). -/
def charUtf8 (c : Char) : List Nat :=
  let n := c.toNat
  if n < 128 then [n]
  else if n < 2048 then [192 + n / 64, 128 + n % 64]
  else if n < 65536 then
    [224 + n / 4096, 128 + (n / 64) % 64, 128 + n % 64]
  else
    [240 + n / 262144, 128 + (n / 4096) % 64, 128 + (n / 64) % 64,
     128 + n % 64]

/-- UTF-8 bytes of a string (str.encode). -/
def utf8Bytes (s : String) : List Nat :=
  s.data.foldr (fun c acc => charUtf8 c ++ acc) []

/-- Truncation to a 32-bit word. -/
def w32 (x : Nat) : Nat := x % 4294967296

/-- 32-bit right rotation. -/
def rotr32 (x n : Nat) : Nat := w32 ((x >>> n) ||| (x <<< (32 - n)))

/-- SHA-256 big sigma 0. -/
def bsig0 (x : Nat) : Nat := (rotr32 x 2) ^^^ (rotr32 x 13) ^^^ (rotr32 x 22)

/-- SHA-256 big sigma 1. -/
def bsig1 (x : Nat) : Nat := (rotr32 x 6) ^^^ (rotr32 x 11) ^^^ (rotr32 x 25)

/-- SHA-256 small sigma 0. -/
def ssig0 (x : Nat) : Nat := (rotr32 x 7) ^^^ (rotr32 x 18) ^^^ (x >>> 3)

/-- SHA-256 small sigma 1. -/
def ssig1 (x : Nat) : Nat := (rotr32 x 17) ^^^ (rotr32 x 19) ^^^ (x >>> 10)

/-- The 64 SHA-256 round constants. -/
def shaK : List Nat :=
  [1116352408, 1899447441, 3049323471, 3921009573, 961987163, 1508970993,
   2453635748, 2870763221, 3624381080, 310598401, 607225278, 1426881987,
   1925078388, 2162078206, 2614888103, 3248222580, 3835390401, 4022224774,
   264347078, 604807628, 770255983, 1249150122, 1555081692, 1996064986,
   2554220882, 2821834349, 2952996808, 3210313671, 3336571891, 3584528711,
   113926993, 338241895, 666307205, 773529912, 1294757372, 1396182291,
   1695183700, 1986661051, 2177026350, 2456956037, 2730485921, 2820302411,
   3259730800, 3345764771, 3516065817, 3600352804, 4094571909, 275423344,
   430227734, 506948616, 659060556, 883997877, 958139571, 1322822218,
   1537002063, 1747873779, 1955562222, 2024104815, 2227730452, 2361852424,
   2428436474, 2756734187, 3204031479, 3329325298]

/-- The SHA-256 initial hash state. -/
def shaH0 : List Nat :=
  [1779033703, 3144134277, 1013904242, 2773480762, 1359893119, 2600822924,
   528734635, 1541459225]

/-- SHA-256 padding: 0x80, zeros to 56 mod 64, then the 64-bit big-endian
bit length. -/
def shaPad (msg : List Nat) : List Nat :=
  let padLen := (119 - (msg.length % 64)) % 64
  msg ++ [128] ++ List.replicate padLen 0 ++
    (List.range 8).map (fun i => ((8 * msg.length) >>> (8 * (7 - i))) % 256)

/-- The 16 big-endian message words of one 64-byte chunk. -/
def chunkWords (bytes : List Nat) : List Nat :=
  (List.range 16).map (fun i =>
    (bytes.getD (4 * i) 0) * 16777216 + (bytes.getD (4 * i + 1) 0) * 65536 +
      (bytes.getD (4 * i + 2) 0) * 256 + bytes.getD (4 * i + 3) 0)

/-- Extend the message schedule by n further words. -/
def extendWords (ws : List Nat) : Nat → List Nat
  | 0 => ws
  | n + 1 =>
    let len := ws.length
    let next := w32 (ws.getD (len - 16) 0 + ssig0 (ws.getD (len - 15) 0) +
      ws.getD (len - 7) 0 + ssig1 (ws.getD (len - 2) 0))
    extendWords (ws ++ [next]) n

/-- The 64-word message schedule of one chunk. -/
def schedule (chunk : List Nat) : List Nat :=
  extendWords (chunkWords chunk) 48

/-- One SHA-256 compression round on the 8-word working state. -/
def roundFn (st : Nat × Nat × Nat × Nat × Nat × Nat × Nat × Nat)
    (kw : Nat × Nat) : Nat × Nat × Nat × Nat × Nat × Nat × Nat × Nat :=
  match st, kw with
  | (a, b, c, d, e, f, g, h), (k, w) =>
    let ch := (e &&& f) ^^^ ((e ^^^ 4294967295) &&& g)
    let maj := (a &&& b) ^^^ (a &&& c) ^^^ (b &&& c)
    let t1 := w32 (h + bsig1 e + ch + k + w)
    let t2 := w32 (bsig0 a + maj)
    (w32 (t1 + t2), a, b, c, w32 (d + t1), e, f, g)

/-- SHA-256 compression of one 64-byte chunk into the hash state. -/
def compress (h : List Nat) (chunk : List Nat) : List Nat :=
  let ws := schedule chunk
  let init := (h.getD 0 0, h.getD 1 0, h.getD 2 0, h.getD 3 0, h.getD 4 0,
    h.getD 5 0, h.getD 6 0, h.getD 7 0)
  let t := (shaK.zip ws).foldl roundFn init
  [w32 (h.getD 0 0 + t.1), w32 (h.getD 1 0 + t.2.1),
   w32 (h.getD 2 0 + t.2.2.1), w32 (h.getD 3 0 + t.2.2.2.1),
   w32 (h.getD 4 0 + t.2.2.2.2.1), w32 (h.getD 5 0 + t.2.2.2.2.2.1),
   w32 (h.getD 6 0 + t.2.2.2.2.2.2.1), w32 (h.getD 7 0 + t.2.2.2.2.2.2.2)]

/-- A byte list split into 64-byte chunks, with a structural fuel bound
so the definition reduces definitionally (the fuel is the list length,
always enough since each chunk consumes 64 bytes). -/
def chunksOf64Go : Nat → List Nat → List (List Nat)
  | _, [] => []
  | 0, _ :: _ => []
  | fuel + 1, x :: rest =>
    (x :: rest).take 64 :: chunksOf64Go fuel ((x :: rest).drop 64)

/-- A byte list split into 64-byte chunks. -/
def chunksOf64 (l : List Nat) : List (List Nat) :=
  chunksOf64Go l.length l

/-- The eight 32-bit words of the SHA-256 digest of a byte list. -/
def sha256Words (msg : List Nat) : List Nat :=
  (chunksOf64 (shaPad msg)).foldl compress shaH0

/-- Eight lowercase hex digits of one digest word. -/
def wordHex (w : Nat) : List Char :=
  (List.range 8).map (fun i => hexDigitChar ((w >>> (4 * (7 - i))) % 16))

/-- hashlib.sha256(data).hexdigest() as a character list. -/
def sha256HexChars (msg : List Nat) : List Char :=
  (sha256Words msg).foldr (fun w acc => wordHex w ++ acc) []

/-- The canonical cache-relevant subset of a request, with the defaults
the source substitutes: exactly the dict literal cache_data of
CacheManager._generate_cache_key. -/
def cacheData (r : RawReq) : List (String × Json) :=
  [("model", (jsonGet r "model").getD .null),
   ("messages", (jsonGet r "messages").getD .null),
   ("temperature", getD r "temperature" (.float 1)),
   ("max_tokens", getD r "max_tokens" (.int 256)),
   ("top_p", getD r "top_p" (.float 1)),
   ("frequency_penalty", getD r "frequency_penalty" (.float 0)),
   ("presence_penalty", getD r "presence_penalty" (.float 0)),
   ("stop", (jsonGet r "stop").getD .null),
   ("functions", (jsonGet r "functions").getD .null),
   ("tools", (jsonGet r "tools").getD .null)]

/-- CacheManager._generate_cache_key: the sorted-key serialization of the
canonical subset, SHA-256 hashed, hexdigest truncated to 32 characters. -/
def generate_cache_key (r : RawReq) : String :=
  String.mk ((sha256HexChars (utf8Bytes (dumps (.obj (cacheData r))))).take 32)

/-- The outcome of one backend HTTP attempt, as the environment presents
it to forward_to_backend: a transport-level failure (connection error or
timeout) or an HTTP response with a status and a parsed JSON body. -/
inductive Attempt (α : Type) where
  | transport : Attempt α
  | http (status : Nat) (body : α) : Attempt α

/-- A dispatch failure: the final attempt failed at the transport level
and its exception was re-raised, or the loop was exhausted without an
attempt (unreachable for a positive retry budget). -/
inductive DispatchErr where
  | transport : DispatchErr
  | exhausted : DispatchErr
  deriving DecidableEq

/-- What a run of forward_to_backend did: the returned body or raised
failure, the backoff sleeps performed in order, and how many attempts
were made. -/
structure DispatchOut (α : Type) where
  result : Except DispatchErr α
  sleeps : List Nat
  attemptsMade : Nat

/-- The retry loop of forward_to_backend from a given attempt index, with
structural fuel (the remaining loop iterations): HTTP 200 returns the
body; status 500 and above retries after sleeping 2 to the power of the
attempt index, except on the last attempt, where the error body is
returned as is; any other status returns its body at once; a transport
failure retries on the same schedule and is re-raised on the last
attempt. -/
def forwardGo (a : Nat → Attempt α) (maxRetries : Nat) :
    Nat → Nat → DispatchOut α
  | _, 0 => ⟨.error .exhausted, [], 0⟩
  | attempt, fuel + 1 =>
    match a attempt with
    | .http s b =>
      if s == 200 then ⟨.ok b, [], 1⟩
      else if 500 ≤ s then
        if attempt < maxRetries - 1 then
          let rest := forwardGo a maxRetries (attempt + 1) fuel
          ⟨rest.result, 2 ^ attempt :: rest.sleeps, rest.attemptsMade + 1⟩
        else ⟨.ok b, [], 1⟩
      else ⟨.ok b, [], 1⟩
    | .transport =>
      if attempt < maxRetries - 1 then
        let rest := forwardGo a maxRetries (attempt + 1) fuel
        ⟨rest.result, 2 ^ attempt :: rest.sleeps, rest.attemptsMade + 1⟩
      else ⟨.error .transport, [], 1⟩

/-- forward_to_backend of main.py, over an environment that fixes the
outcome of each attempt. The source passes max_retries = 3 by default. -/
def forward_to_backend (a : Nat → Attempt α) (maxRetries : Nat) :
    DispatchOut α :=
  forwardGo a maxRetries 0 maxRetries

/-- An attempt outcome that the dispatcher retries: a transport failure
or an HTTP server error (status 500 and above). -/
def retryable : Attempt α → Bool
  | .transport => true
  | .http s _ => 500 ≤ s

/-- The HTTP status of an attempt outcome, none for transport failures. -/
def attemptStatus : Attempt α → Option Nat
  | .transport => none
  | .http s _ => some s

/-- The dispatch contract of the spec for max_retries = 3, written from
its words: a response on attempt 0 that is not retryable is returned at
once with no sleep; a retryable outcome sleeps 2 to the power 0 then
moves to attempt 1, likewise to attempt 2 after sleeping 2 to the power
1; the final attempt returns whatever body arrived (the last error body
as is when it was a server error) and surfaces a dispatch failure when
it failed at the transport level. -/
def dispatchSpec3 (a0 a1 a2 : Attempt α) : DispatchOut α :=
  if retryable a0 then
    if retryable a1 then
      match a2 with
      | .http _ b => ⟨.ok b, [1, 2], 3⟩
      | .transport => ⟨.error .transport, [1, 2], 3⟩
    else
      match a1 with
      | .http _ b => ⟨.ok b, [1], 2⟩
      | .transport => ⟨.error .transport, [1], 2⟩
  else
    match a0 with
    | .http _ b => ⟨.ok b, [], 1⟩
    | .transport => ⟨.error .transport, [], 1⟩

/-- The environment of the CacheManager: whether a Cosmos client can be
constructed at all, the store contents as (id, partition-key) entries
holding the cached response, and whether a read or write call raises.
The stored created_at and ttl fields are not modelled: the claims about
the cache assume no intervening expiry, and expiry is enforced by the
store, not by this code. -/
structure CacheEnv where
  available : Bool
  store : List ((String × Json) × Json)
  readFails : Bool
  writeFails : Bool

/-- Cosmos upsert_item: replace the entry with the same id and partition
key, or append a new one. -/
def upsertStore : List ((String × Json) × Json) → (String × Json) → Json →
    List ((String × Json) × Json)
  | [], k, v => [(k, v)]
  | (k0, v0) :: rest, k, v =>
    if k0.1 == k.1 && Json.beq k0.2 k.2 then (k, v) :: rest
    else (k0, v0) :: upsertStore rest k v

/-- CacheManager.get_cached_response: no client or any raised exception
yields None (the try/except blocks swallow every failure); otherwise the
item under the generated key and the model partition key is returned, or
None when absent. -/
def get_cached_response (env : CacheEnv) (r : RawReq) : Option Json :=
  if !env.available then none
  else if env.readFails then none
  else
    let cache_key := generate_cache_key r
    let partition_key := getD r "model" (.str "default")
    match env.store.find?
        (fun e => e.1.1 == cache_key && Json.beq e.1.2 partition_key) with
    | some e => some e.2
    | none => none

/-- CacheManager.set_cached_response: no client or a raised exception
leaves the store untouched (the try/except swallows every failure);
otherwise the response is upserted under the generated key and the model
partition key. -/
def set_cached_response (env : CacheEnv) (r : RawReq) (resp : Json) :
    CacheEnv :=
  if !env.available then env
  else if env.writeFails then env
  else
    let cache_key := generate_cache_key r
    let partition_key := getD r "model" (.str "default")
    { env with store := upsertStore env.store (cache_key, partition_key) resp }

/-- What one request through main (the Gateway Orchestrator) produced:
the HTTP status and JSON body of the reply, the X-Cache header when one
was set, the cache environment after the request, and counters of the
cache lookups, cache write calls, and backend dispatches performed. The
request id and duration stamps (wall-clock data) are not modelled. -/
structure HandleOut where
  status : Nat
  body : Json
  xCache : Option String
  env : CacheEnv
  lookups : Nat
  writes : Nat
  dispatches : Nat

/-- The error envelope of the orchestrator. -/
def errorEnvelope (code msg : String) : Json :=
  .obj [("error", .obj [("code", .str code), ("message", .str msg)])]

/-- The constant internal-error envelope of the outer exception handler
(without the request-id stamp, which is wall-clock data). -/
def internalErrorBody : Json :=
  errorEnvelope "internal_error" "An internal error occurred"

/-- The dispatch-and-respond tail of main: forward to the backend with
max_retries = 3; a raised dispatch failure is caught by the outer
handler and becomes a 500 internal-error envelope; a returned body is
cached (for non-streaming requests, whatever its status was) and echoed
back with HTTP 200 and X-Cache MISS. -/
def dispatchPhase (env : CacheEnv) (a : Nat → Attempt Json) (body2 : RawReq)
    (stream : Bool) (lookups : Nat) : HandleOut :=
  let d := forward_to_backend a 3
  match d.result with
  | .ok resp =>
    if stream then ⟨200, resp, some "MISS", env, lookups, 0, 1⟩
    else
      ⟨200, resp, some "MISS", set_cached_response env body2 resp,
        lookups, 1, 1⟩
  | .error _ => ⟨500, internalErrorBody, none, env, lookups, 0, 1⟩

/-- The request body after main resolves the model: select_model applied
to body.get("model", "auto") and body.get("messages", []), written back
by the assignment body["model"] = selected_model. -/
def body2Of (r : RawReq) : RawReq :=
  setKey r "model"
    (select_model (getD r "model" (.str "auto"))
      (asArr (getD r "messages" (.arr []))))

/-- main of main.py on a parsed request body: validate (a failure is a
400 invalid_request envelope), select the model and write it back into
the body, then, unless the request streams, try the cache: a truthy
cached value is stamped _cached and replied with HTTP 200 and X-Cache
HIT (a truthy non-dict raises on the stamp and becomes a 500 through the
outer handler); otherwise dispatch, cache the returned body when not
streaming, and reply 200 MISS. -/
def handle (env : CacheEnv) (a : Nat → Attempt Json) (r : RawReq) :
    HandleOut :=
  match validate_chat_request r with
  | .error e => ⟨400, errorEnvelope "invalid_request" e, none, env, 0, 0, 0⟩
  | .ok () =>
    let body2 := body2Of r
    let stream := (getD body2 "stream" (.bool false)).truthy
    if stream then dispatchPhase env a body2 true 0
    else
      match get_cached_response env body2 with
      | some cached =>
        if cached.truthy then
          match cached with
          | .obj fs =>
            ⟨200, .obj (setKey fs "_cached" (.bool true)), some "HIT", env,
              1, 0, 0⟩
          | _ => ⟨500, internalErrorBody, none, env, 1, 0, 0⟩
        else dispatchPhase env a body2 false 1
      | none => dispatchPhase env a body2 false 1

/-- The resolved canonical-subset fields of a request, with the defaults
of the spec substituted for absent optional fields, as the claims about
the fingerprint engine phrase them. -/
structure ResolvedFields where
  model : Option Json
  messages : Option Json
  temperature : Json
  max_tokens : Json
  top_p : Json
  frequency_penalty : Json
  presence_penalty : Json
  stop : Option Json
  functions : Option Json
  tools : Option Json

/-- The resolved canonical subset of a request, per the spec words: the
ten cache-relevant fields with defaults temperature 1.0, max_tokens 256,
top_p 1.0 and penalties 0.0 substituted when absent. -/
def resolvedFields (r : RawReq) : ResolvedFields where
  model := jsonGet r "model"
  messages := jsonGet r "messages"
  temperature := getD r "temperature" (.float 1)
  max_tokens := getD r "max_tokens" (.int 256)
  top_p := getD r "top_p" (.float 1)
  frequency_penalty := getD r "frequency_penalty" (.float 0)
  presence_penalty := getD r "presence_penalty" (.float 0)
  stop := jsonGet r "stop"
  functions := jsonGet r "functions"
  tools := jsonGet r "tools"

/-- Model selection written from the spec words: a non-auto request is
returned unchanged; otherwise estimated_tokens is the total content
character count integer-divided by 4, complexity_score is the number of
technical keywords found by case-insensitive substring match in the
concatenated lower-cased message contents, and the decision table picks
mixtral-8x7b over llama-3-70b over phi-3-mini. -/
def selectSpec (requested_model : Json) (messages : List Json) : Json :=
  if !(Json.beq requested_model (.str "auto")) then requested_model
  else
    let estimated_tokens :=
      (messages.map (fun m => (contentOf m).length)).sum / 4
    let joined :=
      String.intercalate " " (messages.map (fun m => lowerStr (contentOf m)))
    let complexity_score :=
      (technical_terms.filter (fun term => pyIn term joined)).length
    if estimated_tokens > 4000 ∨ complexity_score > 2 then .str "mixtral-8x7b"
    else if estimated_tokens > 2000 ∨ complexity_score > 0 then
      .str "llama-3-70b"
    else .str "phi-3-mini"

/-- The token estimate of the validator claim: total character count of
all message contents, integer-divided by 4. -/
def estimateSpec (r : RawReq) : Nat :=
  ((asArr (getD r "messages" (.arr []))).map
    (fun m => (contentOf m).length)).sum / 4

/-- The context-length ceiling of the validator claim: the requested
model context length when the request names a catalog model other than
auto, else the catalog default widest model mixtral-8x7b (32768). -/
def ceilingSpec (r : RawReq) : Nat :=
  match jsonGet r "model" with
  | some (.str s) =>
    if s == "auto" then 32768
    else
      match modelsLookup s with
      | some spec => spec.context_length
      | none => 32768
  | _ => 32768

/-- A minimal valid user message, for concrete instantiations. -/
def msgHi : Json := .obj [("role", .str "user"), ("content", .str "hi")]

/-- A minimal valid request without a model field. -/
def reqHi : RawReq := [("messages", .arr [msgHi])]

/-- A valid request naming a model, with its optional temperature set
explicitly to the default. -/
def reqA : RawReq :=
  [("model", .str "phi-3-mini"), ("messages", .arr [msgHi]),
   ("temperature", .float 1)]

/-- The same resolved request as reqA with the keys in a different order
and the temperature left absent. -/
def reqB : RawReq :=
  [("messages", .arr [msgHi]), ("model", .str "phi-3-mini")]

/-- A valid streaming request. -/
def reqStream : RawReq :=
  [("messages", .arr [msgHi]), ("stream", .bool true)]

/-- A request whose model is the empty string, which the truthiness
guard of the model check lets through. -/
def reqEmptyModel : RawReq :=
  [("model", .str ""), ("messages", .arr [msgHi])]

/-- A request naming a model outside the catalog. -/
def reqBadModel : RawReq :=
  [("model", .str "gpt-4"), ("messages", .arr [msgHi])]

/-- A backend error body, as a 503 response would carry. -/
def e503 : Json :=
  .obj [("error", .obj [("code", .str "backend_unavailable"),
    ("message", .str "overloaded")])]

/-- A backend that answers HTTP 503 with the same body on every attempt. -/
def a503 : Nat → Attempt Json := fun _ => .http 503 e503

/-- A backend that answers HTTP 200 with an empty JSON object body. -/
def aEmptyOk : Nat → Attempt Json := fun _ => .http 200 (.obj [])

/-- A backend that answers HTTP 200 with a truthy JSON object body. -/
def aOk : Nat → Attempt Json := fun _ => .http 200 (.obj [("ok", .bool true)])

/-- A cache environment with no client (no COSMOS_ACCOUNT configured). -/
def envOff : CacheEnv := ⟨false, [], false, false⟩

/-- A working, initially empty cache environment. -/
def envWork : CacheEnv := ⟨true, [], false, false⟩

end Gateway

namespace Gateway

mutual

theorem Json.beq_refl : (v : Json) → Json.beq v v = true
  | .null => rfl
  | .bool b => by simp [Json.beq]
  | .int n => by simp [Json.beq]
  | .float q => by simp [Json.beq]
  | .str s => by simp [Json.beq]
  | .arr xs => by rw [Json.beq]; exact Json.beqList_refl xs
  | .obj fs => by rw [Json.beq]; exact Json.beqFields_refl fs

theorem Json.beqList_refl : (xs : List Json) → Json.beqList xs xs = true
  | [] => rfl
  | x :: xs => by
    rw [Json.beqList, Json.beq_refl x, Json.beqList_refl xs]; rfl

theorem Json.beqFields_refl :
    (fs : List (String × Json)) → Json.beqFields fs fs = true
  | [] => rfl
  | (k, v) :: fs => by
    rw [Json.beqFields, Json.beq_refl v, Json.beqFields_refl fs]
    simp

end

theorem foldl_count_eq_filter_length {α : Type} (p : α → Bool) :
    ∀ (l : List α) (n : Nat),
      l.foldl (fun acc x => if p x then acc + 1 else acc) n =
        n + (l.filter p).length
  | [], n => rfl
  | x :: xs, n => by
    simp only [List.foldl, List.filter]
    cases hp : p x
    · rw [if_neg (by simp)]
      exact foldl_count_eq_filter_length p xs n
    · rw [if_pos rfl, foldl_count_eq_filter_length p xs (n + 1)]
      simp only [List.length_cons]
      omega

theorem find_setKey_ne (k1 k2 : String) (v : Json) (hne : ¬(k1 = k2)) :
    ∀ (r : RawReq),
      List.find? (fun p => p.1 == k2) (setKey r k1 v) =
        List.find? (fun p => p.1 == k2) r
  | [] => by
    simp [setKey, List.find?, beq_eq_false_iff_ne.mpr hne]
  | (k0, v0) :: rest => by
    simp only [setKey]
    by_cases h0 : (k0 == k1) = true
    · have hk0 : k0 = k1 := eq_of_beq h0
      have hA : (k1 == k2) = false := beq_eq_false_iff_ne.mpr hne
      have hB : (k0 == k2) = false :=
        beq_eq_false_iff_ne.mpr (by rw [hk0]; exact hne)
      simp [h0, List.find?, hA, hB]
    · have h0' : (k0 == k1) = false := by simpa using h0
      rw [if_neg (by simp [h0'])]
      by_cases h2 : (k0 == k2) = true
      · simp [List.find?, h2]
      · have h2' : (k0 == k2) = false := by simpa using h2
        simp only [List.find?, h2']
        exact find_setKey_ne k1 k2 v hne rest

theorem jsonGet_setKey_ne (r : RawReq) (k1 k2 : String) (v : Json)
    (hne : ¬(k1 = k2)) :
    jsonGet (setKey r k1 v) k2 = jsonGet r k2 := by
  simp [jsonGet, find_setKey_ne k1 k2 v hne r]

theorem getD_body2Of_stream (r : RawReq) (d : Json) :
    getD (body2Of r) "stream" d = getD r "stream" d := by
  simp [getD, body2Of, jsonGet_setKey_ne r "model" "stream" _ (by decide)]

theorem wordHex_length (w : Nat) : (wordHex w).length = 8 := by
  simp [wordHex]

theorem compress_length (h c : List Nat) : (compress h c).length = 8 := by
  unfold compress
  rfl

theorem foldl_compress_len :
    ∀ (cs : List (List Nat)) (h : List Nat), h.length = 8 →
      (cs.foldl compress h).length = 8
  | [], _, hh => hh
  | c :: cs, h, _ => by
    simp only [List.foldl]
    exact foldl_compress_len cs (compress h c) (compress_length h c)

theorem sha256Words_length (m : List Nat) : (sha256Words m).length = 8 :=
  foldl_compress_len _ _ rfl

theorem foldr_wordHex_length :
    ∀ (ws : List Nat),
      (ws.foldr (fun w acc => wordHex w ++ acc) []).length = 8 * ws.length
  | [] => rfl
  | w :: ws => by
    simp only [List.foldr, List.length_append, wordHex_length,
      foldr_wordHex_length ws, List.length_cons]
    ring

theorem sha256HexChars_length (m : List Nat) :
    (sha256HexChars m).length = 64 := by
  simp [sha256HexChars, foldr_wordHex_length, sha256Words_length]

theorem generate_cache_key_length (r : RawReq) :
    (generate_cache_key r).length = 32 := by
  simp [generate_cache_key, String.length, List.length_take,
    sha256HexChars_length]

theorem cacheData_eq_of_resolved {r1 r2 : RawReq}
    (h : resolvedFields r1 = resolvedFields r2) :
    cacheData r1 = cacheData r2 := by
  have h1 := congrArg ResolvedFields.model h
  have h2 := congrArg ResolvedFields.messages h
  have h3 := congrArg ResolvedFields.temperature h
  have h4 := congrArg ResolvedFields.max_tokens h
  have h5 := congrArg ResolvedFields.top_p h
  have h6 := congrArg ResolvedFields.frequency_penalty h
  have h7 := congrArg ResolvedFields.presence_penalty h
  have h8 := congrArg ResolvedFields.stop h
  have h9 := congrArg ResolvedFields.functions h
  have h10 := congrArg ResolvedFields.tools h
  simp only [resolvedFields, getD] at h1 h2 h3 h4 h5 h6 h7 h8 h9 h10
  simp only [cacheData, getD]
  rw [h1, h2, h3, h4, h5, h6, h7, h8, h9, h10]

/-- C1: two valid requests whose resolved canonical-subset fields agree
(whatever the key order of the original input, and whether an optional
field is absent or set to its default) receive the same cache key, a
32-character string. -/
theorem fingerprint_deterministic (r1 r2 : RawReq)
    (hv1 : validate_chat_request r1 = .ok ())
    (hv2 : validate_chat_request r2 = .ok ())
    (h : resolvedFields r1 = resolvedFields r2) :
    generate_cache_key r1 = generate_cache_key r2 ∧
      (generate_cache_key r1).length = 32 := by
  constructor
  · simp [generate_cache_key, cacheData_eq_of_resolved h]
  · exact generate_cache_key_length r1

/-- C1 witness: reqA and reqB differ in key order and in explicit versus
defaulted temperature, resolve identically, and collide on a 32-character
key. -/
theorem fingerprint_deterministic_witness :
    validate_chat_request reqA = .ok () ∧
    validate_chat_request reqB = .ok () ∧
    resolvedFields reqA = resolvedFields reqB ∧
    generate_cache_key reqA = generate_cache_key reqB ∧
    (generate_cache_key reqA).length = 32 := by
  refine ⟨rfl, rfl, rfl, ?_⟩
  exact fingerprint_deterministic reqA reqB rfl rfl rfl

end Gateway

namespace Gateway

/-- C2: ModelRouter.select_model implements the routing table of the
spec: a non-auto request passes through unchanged, and an auto request
is routed on the token estimate and the technical-keyword count. -/
theorem select_model_follows_spec (requested_model : Json)
    (messages : List Json) :
    select_model requested_model messages =
      selectSpec requested_model messages := by
  unfold select_model selectSpec
  simp only [foldl_count_eq_filter_length, Nat.zero_add, Bool.or_eq_true,
    decide_eq_true_eq]

theorem forwardGo_succ_http {α : Type} (a : Nat → Attempt α)
    (maxR attempt fuel : Nat) (s : Nat) (b : α) (h : a attempt = .http s b) :
    forwardGo a maxR attempt (fuel + 1) =
      if s == 200 then ⟨.ok b, [], 1⟩
      else if 500 ≤ s then
        if attempt < maxR - 1 then
          ⟨(forwardGo a maxR (attempt + 1) fuel).result,
            2 ^ attempt :: (forwardGo a maxR (attempt + 1) fuel).sleeps,
            (forwardGo a maxR (attempt + 1) fuel).attemptsMade + 1⟩
        else ⟨.ok b, [], 1⟩
      else ⟨.ok b, [], 1⟩ := by
  simp only [forwardGo, h]

theorem forwardGo_succ_transport {α : Type} (a : Nat → Attempt α)
    (maxR attempt fuel : Nat) (h : a attempt = .transport) :
    forwardGo a maxR attempt (fuel + 1) =
      if attempt < maxR - 1 then
        ⟨(forwardGo a maxR (attempt + 1) fuel).result,
          2 ^ attempt :: (forwardGo a maxR (attempt + 1) fuel).sleeps,
          (forwardGo a maxR (attempt + 1) fuel).attemptsMade + 1⟩
      else ⟨.error .transport, [], 1⟩ := by
  simp only [forwardGo, h]

end Gateway

namespace Gateway

/-- C3: forward_to_backend with max_retries 3 realizes the dispatch
contract dispatchSpec3, and makes at most three attempts in total. -/
theorem dispatch_retry_contract {α : Type} (a : Nat → Attempt α) :
    forward_to_backend a 3 = dispatchSpec3 (a 0) (a 1) (a 2) ∧
      (forward_to_backend a 3).attemptsMade ≤ 3 := by
  have hfin : forwardGo a 3 2 1 = (match a 2 with
      | .http _ b => ⟨.ok b, [], 1⟩
      | .transport => ⟨.error .transport, [], 1⟩) := by
    rcases ha : a 2 with _ | ⟨s, b⟩
    · rw [forwardGo_succ_transport a 3 2 0 ha]
      simp
    · rw [forwardGo_succ_http a 3 2 0 s b ha]
      split_ifs <;> simp
      all_goals omega
  have hmid : forwardGo a 3 1 2 = (if retryable (a 1) then
      ⟨(forwardGo a 3 2 1).result, 2 :: (forwardGo a 3 2 1).sleeps,
        (forwardGo a 3 2 1).attemptsMade + 1⟩
    else match a 1 with
      | .http _ b => ⟨.ok b, [], 1⟩
      | .transport => ⟨.error .transport, [], 1⟩) := by
    rcases ha : a 1 with _ | ⟨s, b⟩
    · rw [forwardGo_succ_transport a 3 1 1 ha]
      simp [retryable]
    · rw [forwardGo_succ_http a 3 1 1 s b ha]
      by_cases h200 : (s == 200) = true
      · have hs : s = 200 := by simpa using h200
        simp [retryable, hs]
      · by_cases h5 : 500 ≤ s
        · simp [retryable, h200, h5]
        · simp [retryable, h200, h5]
  have htop : forwardGo a 3 0 3 = (if retryable (a 0) then
      ⟨(forwardGo a 3 1 2).result, 1 :: (forwardGo a 3 1 2).sleeps,
        (forwardGo a 3 1 2).attemptsMade + 1⟩
    else match a 0 with
      | .http _ b => ⟨.ok b, [], 1⟩
      | .transport => ⟨.error .transport, [], 1⟩) := by
    rcases ha : a 0 with _ | ⟨s, b⟩
    · rw [forwardGo_succ_transport a 3 0 2 ha]
      simp [retryable]
    · rw [forwardGo_succ_http a 3 0 2 s b ha]
      by_cases h200 : (s == 200) = true
      · have hs : s = 200 := by simpa using h200
        simp [retryable, hs]
      · by_cases h5 : 500 ≤ s
        · simp [retryable, h200, h5]
        · simp [retryable, h200, h5]
  have main : forward_to_backend a 3 = dispatchSpec3 (a 0) (a 1) (a 2) := by
    rw [forward_to_backend, htop, hmid, hfin]
    unfold dispatchSpec3
    by_cases hr0 : retryable (a 0) = true
    · by_cases hr1 : retryable (a 1) = true
      · simp only [hr0, hr1]
        rcases h2 : a 2 with _ | ⟨s2, b2⟩ <;> simp
      · have hr1' : retryable (a 1) = false := by simpa using hr1
        simp only [hr0, hr1']
        rcases h1 : a 1 with _ | ⟨s1, b1⟩
        · rw [h1] at hr1'
          simp [retryable] at hr1'
        · simp
    · have hr0' : retryable (a 0) = false := by simpa using hr0
      simp only [hr0']
      rcases h0 : a 0 with _ | ⟨s0, b0⟩
      · rw [h0] at hr0'
        simp [retryable] at hr0'
      · simp
  have spec_att : ∀ (o0 o1 o2 : Attempt α),
      (dispatchSpec3 o0 o1 o2).attemptsMade ≤ 3 := by
    intro o0 o1 o2
    unfold dispatchSpec3
    split_ifs <;> rcases o2 with _ | ⟨s2, b2⟩ <;>
      rcases o1 with _ | ⟨s1, b1⟩ <;> rcases o0 with _ | ⟨s0, b0⟩ <;> simp
  exact ⟨main, by rw [main]; exact spec_att _ _ _⟩

end Gateway

namespace Gateway

theorem handle_of_ok (env : CacheEnv) (a : Nat → Attempt Json) (r : RawReq)
    (hv : validate_chat_request r = .ok ()) :
    handle env a r =
      (if (getD r "stream" (.bool false)).truthy then
        dispatchPhase env a (body2Of r) true 0
      else
        match get_cached_response env (body2Of r) with
        | some cached =>
          if cached.truthy then
            match cached with
            | .obj fs =>
              ⟨200, .obj (setKey fs "_cached" (.bool true)), some "HIT", env,
                1, 0, 0⟩
            | _ => ⟨500, internalErrorBody, none, env, 1, 0, 0⟩
          else dispatchPhase env a (body2Of r) false 1
        | none => dispatchPhase env a (body2Of r) false 1) := by
  unfold handle
  rw [hv]
  simp only [getD_body2Of_stream]

theorem dispatchPhase_ok (env : CacheEnv) (a : Nat → Attempt Json)
    (b2 : RawReq) (stream : Bool) (lookups : Nat) (resp : Json)
    (hd : (forward_to_backend a 3).result = .ok resp) :
    dispatchPhase env a b2 stream lookups =
      if stream then ⟨200, resp, some "MISS", env, lookups, 0, 1⟩
      else
        ⟨200, resp, some "MISS", set_cached_response env b2 resp, lookups,
          1, 1⟩ := by
  unfold dispatchPhase
  dsimp only
  rw [hd]

theorem dispatchPhase_err (env : CacheEnv) (a : Nat → Attempt Json)
    (b2 : RawReq) (stream : Bool) (lookups : Nat) (er : DispatchErr)
    (hd : (forward_to_backend a 3).result = .error er) :
    dispatchPhase env a b2 stream lookups =
      ⟨500, internalErrorBody, none, env, lookups, 0, 1⟩ := by
  unfold dispatchPhase
  dsimp only
  rw [hd]

theorem handle_stream (env : CacheEnv) (a : Nat → Attempt Json) (r : RawReq)
    (hv : validate_chat_request r = .ok ())
    (hs : (getD r "stream" (.bool false)).truthy = true) :
    handle env a r = dispatchPhase env a (body2Of r) true 0 := by
  rw [handle_of_ok env a r hv, hs]
  simp

theorem handle_nostream_miss (env : CacheEnv) (a : Nat → Attempt Json)
    (r : RawReq) (hv : validate_chat_request r = .ok ())
    (hs : (getD r "stream" (.bool false)).truthy = false)
    (hmiss : get_cached_response env (body2Of r) = none) :
    handle env a r = dispatchPhase env a (body2Of r) false 1 := by
  rw [handle_of_ok env a r hv, hs, hmiss]
  simp

theorem handle_nostream_hit_obj (env : CacheEnv) (a : Nat → Attempt Json)
    (r : RawReq) (fs : List (String × Json))
    (hv : validate_chat_request r = .ok ())
    (hs : (getD r "stream" (.bool false)).truthy = false)
    (hhit : get_cached_response env (body2Of r) = some (.obj fs))
    (hne : fs ≠ []) :
    handle env a r =
      ⟨200, .obj (setKey fs "_cached" (.bool true)), some "HIT", env,
        1, 0, 0⟩ := by
  rw [handle_of_ok env a r hv, hs, hhit]
  have ht : (Json.obj fs).truthy = true := by
    simp [Json.truthy, hne]
  simp [ht]

theorem get_cached_unavailable (env : CacheEnv) (r : RawReq)
    (henv : env.available = false) :
    get_cached_response env r = none := by
  simp [get_cached_response, henv]

theorem get_cached_empty (env : CacheEnv) (r : RawReq)
    (hst : env.store = []) :
    get_cached_response env r = none := by
  unfold get_cached_response
  rw [hst]
  simp [List.find?]

end Gateway

namespace Gateway

/-- C4 counterexample: with the backend answering 503 on all three
attempts, the dispatcher hands back the third 503 body, and the
orchestrator replies with HTTP status 200, not the 503 the backend set. -/
theorem relay_status_counterexample :
    (forward_to_backend a503 3).result = .ok e503 ∧
    (handle envOff a503 reqHi).status = 200 ∧
    ¬((handle envOff a503 reqHi).status = 503) := by
  refine ⟨rfl, rfl, ?_⟩
  intro h
  have h200 : (handle envOff a503 reqHi).status = 200 := rfl
  rw [h200] at h
  exact absurd h (by decide)

/-- C4 amended: after three consecutive 503 responses the dispatcher
returns the third 503 body unchanged (having slept 1 then 2 seconds),
and the orchestrator relays that body with HTTP status 200 and X-Cache
MISS, not the backend status and not a forced 500. -/
theorem error_body_relayed_with_200 (e : Nat → Json) (env : CacheEnv)
    (r : RawReq) (hv : validate_chat_request r = .ok ())
    (hs : (getD r "stream" (.bool false)).truthy = false)
    (henv : env.available = false) :
    forward_to_backend (fun i => Attempt.http 503 (e i)) 3 =
      ⟨.ok (e 2), [1, 2], 3⟩ ∧
    (handle env (fun i => Attempt.http 503 (e i)) r).status = 200 ∧
    (handle env (fun i => Attempt.http 503 (e i)) r).body = e 2 ∧
    (handle env (fun i => Attempt.http 503 (e i)) r).xCache = some "MISS" := by
  have h1 : forward_to_backend (fun i => Attempt.http 503 (e i)) 3 =
      ⟨.ok (e 2), [1, 2], 3⟩ := rfl
  have h2 : handle env (fun i => Attempt.http 503 (e i)) r =
      dispatchPhase env (fun i => Attempt.http 503 (e i)) (body2Of r)
        false 1 :=
    handle_nostream_miss env _ r hv hs
      (get_cached_unavailable env (body2Of r) henv)
  have h3 : dispatchPhase env (fun i => Attempt.http 503 (e i)) (body2Of r)
      false 1 =
      ⟨200, e 2, some "MISS",
        set_cached_response env (body2Of r) (e 2), 1, 1, 1⟩ := by
    rw [dispatchPhase_ok env _ (body2Of r) false 1 (e 2) (by rw [h1])]
    simp
  rw [h2, h3]
  exact ⟨h1, rfl, rfl, rfl⟩

/-- C4 amended witness: the concrete 503 scenario, relayed as 200. -/
theorem error_body_relayed_with_200_witness :
    validate_chat_request reqHi = .ok () ∧
    (getD reqHi "stream" (.bool false)).truthy = false ∧
    envOff.available = false ∧
    ((handle envOff (fun i => Attempt.http 503 ((fun _ => e503) i)) reqHi).status
      = 200 ∧
     (handle envOff (fun i => Attempt.http 503 ((fun _ => e503) i)) reqHi).body
      = (fun _ => e503) 2) := by
  refine ⟨rfl, rfl, rfl, ?_, ?_⟩
  · exact (error_body_relayed_with_200 (fun _ => e503) envOff reqHi rfl rfl
      rfl).2.1
  · exact (error_body_relayed_with_200 (fun _ => e503) envOff reqHi rfl rfl
      rfl).2.2.1

/-- C7: a streaming request never touches the cache: no lookup, no
write, the cache environment is returned unchanged, and the backend is
always dispatched to; independently, a stream field never affects the
fingerprint, since the canonical subset omits it. -/
theorem stream_bypasses_cache (env : CacheEnv) (a : Nat → Attempt Json)
    (r : RawReq) (hv : validate_chat_request r = .ok ())
    (hs : getD r "stream" (.bool false) = .bool true) :
    (handle env a r).lookups = 0 ∧ (handle env a r).writes = 0 ∧
    (handle env a r).env = env ∧ (handle env a r).dispatches = 1 ∧
    ∀ (r2 : RawReq) (v : Json),
      generate_cache_key (("stream", v) :: r2) = generate_cache_key r2 := by
  have hst : (getD r "stream" (.bool false)).truthy = true := by
    rw [hs]; rfl
  have h1 := handle_stream env a r hv hst
  have hkey : ∀ (r2 : RawReq) (v : Json),
      generate_cache_key (("stream", v) :: r2) = generate_cache_key r2 :=
    fun r2 v => rfl
  rcases hd : (forward_to_backend a 3).result with er | resp
  · rw [h1, dispatchPhase_err env a (body2Of r) true 0 er hd]
    exact ⟨rfl, rfl, rfl, rfl, hkey⟩
  · rw [h1, dispatchPhase_ok env a (body2Of r) true 0 resp hd]
    exact ⟨rfl, rfl, rfl, rfl, hkey⟩

/-- C7 witness: a concrete streaming request leaves a concrete cache
untouched and dispatches once. -/
theorem stream_bypasses_cache_witness :
    validate_chat_request reqStream = .ok () ∧
    getD reqStream "stream" (.bool false) = .bool true ∧
    (handle envOff a503 reqStream).lookups = 0 ∧
    (handle envOff a503 reqStream).writes = 0 ∧
    (handle envOff a503 reqStream).dispatches = 1 := by
  have h := stream_bypasses_cache envOff a503 reqStream rfl rfl
  exact ⟨rfl, rfl, h.1, h.2.1, h.2.2.2.1⟩

end Gateway

namespace Gateway

theorem set_cached_into_empty (r : RawReq) (resp : Json) :
    set_cached_response ⟨true, [], false, false⟩ r resp =
      ⟨true, [((generate_cache_key r, getD r "model" (.str "default")), resp)],
        false, false⟩ := rfl

theorem get_cached_single_hit (r : RawReq) (resp : Json) :
    get_cached_response
      ⟨true, [((generate_cache_key r, getD r "model" (.str "default")), resp)],
        false, false⟩ r = some resp := by
  unfold get_cached_response
  dsimp only
  simp [List.find?, Json.beq_refl]

theorem miss_then_hit (a : Nat → Attempt Json) (r : RawReq)
    (fs : List (String × Json))
    (hv : validate_chat_request r = .ok ())
    (hs : (getD r "stream" (.bool false)).truthy = false)
    (hd : (forward_to_backend a 3).result = .ok (.obj fs))
    (hne : fs ≠ []) :
    handle ⟨true, [], false, false⟩ a r =
      ⟨200, .obj fs, some "MISS",
        ⟨true, [((generate_cache_key (body2Of r),
          getD (body2Of r) "model" (.str "default")), .obj fs)], false, false⟩,
        1, 1, 1⟩ ∧
    handle ⟨true, [((generate_cache_key (body2Of r),
        getD (body2Of r) "model" (.str "default")), .obj fs)], false, false⟩
      a r =
      ⟨200, .obj (setKey fs "_cached" (.bool true)), some "HIT",
        ⟨true, [((generate_cache_key (body2Of r),
          getD (body2Of r) "model" (.str "default")), .obj fs)], false, false⟩,
        1, 0, 0⟩ := by
  constructor
  · rw [handle_nostream_miss ⟨true, [], false, false⟩ a r hv hs
      (get_cached_empty _ _ rfl)]
    rw [dispatchPhase_ok _ a (body2Of r) false 1 (.obj fs) hd]
    rw [set_cached_into_empty (body2Of r) (.obj fs)]
    simp
  · exact handle_nostream_hit_obj _ a r fs hv hs
      (get_cached_single_hit (body2Of r) (.obj fs)) hne

end Gateway

namespace Gateway

/-- C5 counterexample: a valid non-streaming request answered by the
backend with the empty JSON object, processed twice against a working,
initially empty cache: the first pass dispatches and writes, yet the
second pass is a MISS that dispatches again, because the falsy cached
value fails the truthiness test of the hit path. -/
theorem cache_idempotence_counterexample :
    (handle envWork aEmptyOk reqHi).writes = 1 ∧
    (handle envWork aEmptyOk reqHi).env.store.length = 1 ∧
    (handle (handle envWork aEmptyOk reqHi).env aEmptyOk reqHi).xCache =
      some "MISS" ∧
    (handle (handle envWork aEmptyOk reqHi).env aEmptyOk reqHi).dispatches =
      1 := by
  exact ⟨rfl, rfl, rfl, rfl⟩

/-- C5 amended: for a valid non-streaming request against a working,
initially empty cache, when the backend answers with a truthy JSON
object body, the first pass dispatches once and writes the body to the
cache, and the second identical request is answered from the cache with
HTTP 200, X-Cache HIT, the body stamped _cached true, and no second
dispatch. A falsy response body (such as the empty object) instead
fails the truthiness test on the hit path and dispatches again. -/
theorem cache_idempotence_amended (env : CacheEnv) (a : Nat → Attempt Json)
    (r : RawReq) (fs : List (String × Json))
    (hv : validate_chat_request r = .ok ())
    (hs : (getD r "stream" (.bool false)).truthy = false)
    (henv : env = ⟨true, [], false, false⟩)
    (hd : (forward_to_backend a 3).result = .ok (.obj fs))
    (hne : fs ≠ []) :
    (handle env a r).xCache = some "MISS" ∧
    (handle env a r).dispatches = 1 ∧
    (handle env a r).writes = 1 ∧
    (handle env a r).env.store =
      [((generate_cache_key (body2Of r),
        getD (body2Of r) "model" (.str "default")), .obj fs)] ∧
    (handle (handle env a r).env a r).status = 200 ∧
    (handle (handle env a r).env a r).xCache = some "HIT" ∧
    (handle (handle env a r).env a r).body =
      .obj (setKey fs "_cached" (.bool true)) ∧
    (handle (handle env a r).env a r).dispatches = 0 := by
  subst henv
  obtain ⟨h1, h2⟩ := miss_then_hit a r fs hv hs hd hne
  rw [h1]
  exact ⟨rfl, rfl, rfl, rfl, by rw [h2], by rw [h2], by rw [h2], by rw [h2]⟩

/-- C5 amended witness: the two-pass scenario at a concrete request with
a truthy backend body. -/
theorem cache_idempotence_amended_witness :
    validate_chat_request reqHi = .ok () ∧
    (getD reqHi "stream" (.bool false)).truthy = false ∧
    (forward_to_backend aOk 3).result = .ok (.obj [("ok", .bool true)]) ∧
    (handle envWork aOk reqHi).xCache = some "MISS" ∧
    (handle (handle envWork aOk reqHi).env aOk reqHi).xCache = some "HIT" ∧
    (handle (handle envWork aOk reqHi).env aOk reqHi).dispatches = 0 := by
  have h := cache_idempotence_amended envWork aOk reqHi [("ok", .bool true)]
    rfl rfl rfl rfl (List.cons_ne_nil _ _)
  exact ⟨rfl, rfl, rfl, h.1, h.2.2.2.2.2.1, h.2.2.2.2.2.2.2⟩

/-- C10: when the dispatcher returns a body from a run in which no
attempt got HTTP 200 (a 4xx body returned at once, or the final server
error body after exhausted retries), a non-streaming request writes that
body to the cache under the fingerprint of the resolved request, the
same key a success would use, and a subsequent identical request is
served that error body as a cache HIT: HTTP 200, _cached true, and no
dispatch. -/
theorem error_bodies_cached (env : CacheEnv) (a : Nat → Attempt Json)
    (r : RawReq) (fs : List (String × Json))
    (hv : validate_chat_request r = .ok ())
    (hs : (getD r "stream" (.bool false)).truthy = false)
    (henv : env = ⟨true, [], false, false⟩)
    (hd : (forward_to_backend a 3).result = .ok (.obj fs))
    (hnon200 : ∀ i, ¬(attemptStatus (a i) = some 200))
    (hne : fs ≠ []) :
    (handle env a r).env.store =
      [((generate_cache_key (body2Of r),
        getD (body2Of r) "model" (.str "default")), .obj fs)] ∧
    (handle (handle env a r).env a r).status = 200 ∧
    (handle (handle env a r).env a r).xCache = some "HIT" ∧
    (handle (handle env a r).env a r).body =
      .obj (setKey fs "_cached" (.bool true)) ∧
    (handle (handle env a r).env a r).dispatches = 0 := by
  subst henv
  obtain ⟨h1, h2⟩ := miss_then_hit a r fs hv hs hd hne
  rw [h1]
  exact ⟨rfl, by rw [h2], by rw [h2], by rw [h2], by rw [h2]⟩

/-- C10 witness: the exhausted-503 scenario, cached and then served as
a HIT. -/
theorem error_bodies_cached_witness :
    validate_chat_request reqHi = .ok () ∧
    (forward_to_backend a503 3).result =
      .ok (.obj [("error", .obj [("code", .str "backend_unavailable"),
        ("message", .str "overloaded")])]) ∧
    (∀ i, ¬(attemptStatus (a503 i) = some 200)) ∧
    (handle (handle envWork a503 reqHi).env a503 reqHi).xCache = some "HIT" ∧
    (handle (handle envWork a503 reqHi).env a503 reqHi).status = 200 ∧
    (handle (handle envWork a503 reqHi).env a503 reqHi).dispatches = 0 := by
  have h := error_bodies_cached envWork a503 reqHi
    [("error", .obj [("code", .str "backend_unavailable"),
      ("message", .str "overloaded")])]
    rfl rfl rfl rfl (fun i => by simp [a503, attemptStatus])
    (List.cons_ne_nil _ _)
  exact ⟨rfl, rfl, fun i => by simp [a503, attemptStatus], h.2.2.1, h.2.1,
    h.2.2.2.2⟩

end Gateway

namespace Gateway

theorem handle_validate_error (env : CacheEnv) (a : Nat → Attempt Json)
    (r : RawReq) (e : String) (hv : validate_chat_request r = .error e) :
    handle env a r =
      ⟨400, errorEnvelope "invalid_request" e, none, env, 0, 0, 0⟩ := by
  unfold handle
  rw [hv]

/-- C6: cache failures are swallowed at the component boundary: a
lookup against a raising store returns the same as a miss, a write
against a raising store is a no-op, and a request handled with a
fully failing cache has the same status, body, and cache header as one
handled with no cache client at all, with the store left untouched —
cache errors never surface to the orchestrator. -/
theorem cache_errors_nonfatal (store : List ((String × Json) × Json))
    (r : RawReq) (resp : Json) (a : Nat → Attempt Json) (wf rf : Bool) :
    get_cached_response ⟨true, store, true, wf⟩ r = none ∧
    (set_cached_response ⟨true, store, rf, true⟩ r resp).store = store ∧
    (handle ⟨true, store, true, true⟩ a r).status =
      (handle ⟨false, store, false, false⟩ a r).status ∧
    (handle ⟨true, store, true, true⟩ a r).body =
      (handle ⟨false, store, false, false⟩ a r).body ∧
    (handle ⟨true, store, true, true⟩ a r).xCache =
      (handle ⟨false, store, false, false⟩ a r).xCache ∧
    (handle ⟨true, store, true, true⟩ a r).env.store = store := by
  refine ⟨rfl, rfl, ?_⟩
  rcases hv : validate_chat_request r with e | u
  · rw [handle_validate_error _ a r e hv, handle_validate_error _ a r e hv]
    exact ⟨rfl, rfl, rfl, rfl⟩
  · cases u
    by_cases hst : (getD r "stream" (.bool false)).truthy = true
    · rw [handle_stream _ a r hv hst, handle_stream _ a r hv hst]
      rcases hd : (forward_to_backend a 3).result with er | resp2
      · rw [dispatchPhase_err _ a (body2Of r) true 0 er hd,
          dispatchPhase_err _ a (body2Of r) true 0 er hd]
        exact ⟨rfl, rfl, rfl, rfl⟩
      · rw [dispatchPhase_ok _ a (body2Of r) true 0 resp2 hd,
          dispatchPhase_ok _ a (body2Of r) true 0 resp2 hd]
        exact ⟨rfl, rfl, rfl, rfl⟩
    · have hst' : (getD r "stream" (.bool false)).truthy = false := by
        simpa using hst
      rw [handle_nostream_miss ⟨true, store, true, true⟩ a r hv hst'
          (by rfl),
        handle_nostream_miss ⟨false, store, false, false⟩ a r hv hst'
          (get_cached_unavailable _ _ rfl)]
      rcases hd : (forward_to_backend a 3).result with er | resp2
      · rw [dispatchPhase_err _ a (body2Of r) false 1 er hd,
          dispatchPhase_err _ a (body2Of r) false 1 er hd]
        exact ⟨rfl, rfl, rfl, rfl⟩
      · rw [dispatchPhase_ok _ a (body2Of r) false 1 resp2 hd,
          dispatchPhase_ok _ a (body2Of r) false 1 resp2 hd]
        exact ⟨rfl, rfl, rfl, rfl⟩

/-- C9 counterexample: a request whose model is the empty string — present,
not auto, and certainly not in the catalog — passes validation, because
the Python truthiness guard (if model and ...) skips the check for every
falsy model value. -/
theorem empty_model_not_rejected :
    validate_chat_request reqEmptyModel = .ok () := rfl

/-- C9 amended: a present and truthy model value that is neither auto nor
a catalog id is rejected, once the message checks pass, with an error
naming the model; falsy model values such as the empty string escape the
check. -/
theorem unsupported_model_rejected (r : RawReq) (m : Json)
    (hmsg : messagesCheck (getD r "messages" (.arr [])) = .ok ())
    (hm : jsonGet r "model" = some m)
    (ht : m.truthy = true)
    (hauto : isAutoVal m = false)
    (hcat : inCatalog m = false) :
    validate_chat_request r =
      .error ("model \x27" ++ pyStr m ++ "\x27 is not supported") := by
  have hmc : modelCheck r =
      .error ("model \x27" ++ pyStr m ++ "\x27 is not supported") := by
    unfold modelCheck
    rw [hm]
    simp [ht, hauto, hcat]
  unfold validate_chat_request structuralChecks
  rw [hmsg, hmc]
  rfl

/-- C9 amended witness: a request naming gpt-4, a model outside the
catalog, is rejected with an error naming it. -/
theorem unsupported_model_rejected_witness :
    messagesCheck (getD reqBadModel "messages" (.arr [])) = .ok () ∧
    jsonGet reqBadModel "model" = some (.str "gpt-4") ∧
    (Json.str "gpt-4").truthy = true ∧
    isAutoVal (.str "gpt-4") = false ∧
    inCatalog (.str "gpt-4") = false ∧
    validate_chat_request reqBadModel =
      .error ("model \x27" ++ pyStr (.str "gpt-4") ++
        "\x27 is not supported") :=
  ⟨rfl, rfl, rfl, rfl, rfl,
    unsupported_model_rejected reqBadModel (.str "gpt-4") rfl rfl rfl rfl rfl⟩

end Gateway

namespace Gateway

theorem maxContext_eq_ceilingSpec (r : RawReq) :
    maxContextOf r = ceilingSpec r := by
  unfold maxContextOf ceilingSpec
  rcases h : jsonGet r "model" with _ | v
  · simp [isAutoVal]
  · rcases v with _ | b | n | q | s | xs | fs
    · simp [isAutoVal]
    · simp [isAutoVal]
    · simp [isAutoVal]
    · simp [isAutoVal]
    · by_cases hs : (s == "auto") = true
      · simp [isAutoVal, hs, modelsLookup, MODELS, List.find?]
      · have hs' : (s == "auto") = false := by simpa using hs
        simp only [isAutoVal, hs', Bool.not_false, if_true, if_false]
        rcases hl : modelsLookup s with _ | spec <;> simp [hl, hs']
    · simp [isAutoVal]
    · simp [isAutoVal]

end Gateway

namespace Gateway

theorem totalChars_of_ok :
    ∀ (i : Nat) (msgs : List Json), messagesCheckFrom i msgs = .ok () →
      totalCharsStr msgs = (msgs.map (fun m => (contentOf m).length)).sum
  | _, [], _ => rfl
  | i, .null :: rest, h => by simp [messagesCheckFrom] at h
  | i, .bool b :: rest, h => by simp [messagesCheckFrom] at h
  | i, .int n :: rest, h => by simp [messagesCheckFrom] at h
  | i, .float q :: rest, h => by simp [messagesCheckFrom] at h
  | i, .str s :: rest, h => by simp [messagesCheckFrom] at h
  | i, .arr xs :: rest, h => by simp [messagesCheckFrom] at h
  | i, .obj fs :: rest, h => by
    simp only [messagesCheckFrom] at h
    split at h
    next => exact absurd h (by simp)
    next hnone =>
      split at h
      next => exact absurd h (by simp)
      next hrole =>
        split at h
        next s' heq =>
          have hsome : (jsonGet fs "content").isNone = false := by
            rcases hjc0 : jsonGet fs "content" with _ | c
            · rw [hjc0] at hnone
              simp at hnone
            · simp
          have hc : msgContent (.obj fs) = .str s' := by
            unfold msgContent Json.get
            dsimp only
            rcases hjc : jsonGet fs "content" with _ | c
            · simp [hjc] at hsome
            · rw [hjc] at heq
              simpa using heq
          have ih := totalChars_of_ok (i + 1) rest h
          have hgoal : totalCharsStr (Json.obj fs :: rest) =
              (pyStr (msgContent (.obj fs))).length + totalCharsStr rest := by
            simp [totalCharsStr]
          have hspec : ((Json.obj fs :: rest).map
              (fun m => (contentOf m).length)).sum =
              (contentOf (.obj fs)).length +
                (rest.map (fun m => (contentOf m).length)).sum := by
            simp
          rw [hgoal, hspec, ih, hc]
          simp [pyStr, contentOf, hc]
        next heq => exact absurd h (by simp)

/-- C8: for a structurally valid request, the validator accepts exactly
when the token estimate (total content characters integer-divided by 4)
is within the context-length ceiling, and that ceiling is the requested
model context length for a concrete catalog model, else the default
widest model mixtral-8x7b at 32768. -/
theorem token_budget_check (r : RawReq)
    (h : structuralChecks r = .ok ()) :
    (validate_chat_request r = .ok () ↔ estimateSpec r ≤ ceilingSpec r) ∧
      maxContextOf r = ceilingSpec r := by
  refine ⟨?_, maxContext_eq_ceilingSpec r⟩
  have hval : validate_chat_request r = tokenBudgetCheck r := by
    unfold validate_chat_request
    rw [h]
    rfl
  have hmsg : messagesCheck (getD r "messages" (.arr [])) = .ok () := by
    unfold structuralChecks at h
    rcases hm : messagesCheck (getD r "messages" (.arr [])) with e | u
    · rw [hm] at h
      exact absurd h (by simp [Bind.bind, Except.bind])
    · cases u
      rfl
  obtain ⟨msgs, hms, hne, hchk⟩ : ∃ msgs,
      getD r "messages" (.arr []) = .arr msgs ∧ msgs.isEmpty = false ∧
        messagesCheckFrom 0 msgs = .ok () := by
    rcases hms : getD r "messages" (.arr []) with _ | b | n | q | s | xs | fs
    · rw [hms] at hmsg
      simp [messagesCheck] at hmsg
    · rw [hms] at hmsg
      simp [messagesCheck] at hmsg
    · rw [hms] at hmsg
      simp [messagesCheck] at hmsg
    · rw [hms] at hmsg
      simp [messagesCheck] at hmsg
    · rw [hms] at hmsg
      simp [messagesCheck] at hmsg
    · rw [hms] at hmsg
      unfold messagesCheck at hmsg
      dsimp only at hmsg
      by_cases he : xs.isEmpty = true
      · rw [if_pos he] at hmsg
        exact absurd hmsg (by simp)
      · have he' : xs.isEmpty = false := by simpa using he
        rw [if_neg he] at hmsg
        exact ⟨xs, rfl, he', hmsg⟩
    · rw [hms] at hmsg
      simp [messagesCheck] at hmsg
  have hest := totalChars_of_ok 0 msgs hchk
  rw [hval]
  unfold tokenBudgetCheck estimateSpec
  rw [hms, maxContext_eq_ceilingSpec r]
  simp only [asArr, hest]
  by_cases hgt :
      (msgs.map (fun m => (contentOf m).length)).sum / 4 > ceilingSpec r
  · rw [if_pos hgt]
    constructor
    · intro hcontra
      exact absurd hcontra (by simp)
    · intro hle
      omega
  · rw [if_neg hgt]
    constructor
    · intro _
      omega
    · intro _
      rfl

/-- C8 witness: the minimal request, whose estimate 0 is within the
default 32768 ceiling and which validates. -/
theorem token_budget_check_witness :
    structuralChecks reqHi = .ok () ∧
    (validate_chat_request reqHi = .ok () ↔
      estimateSpec reqHi ≤ ceilingSpec reqHi) ∧
    maxContextOf reqHi = ceilingSpec reqHi :=
  ⟨rfl, (token_budget_check reqHi rfl).1, (token_budget_check reqHi rfl).2⟩

end Gateway
